import Mathlib

/-!
Shallow embedding of the real-time chat subsystem of the matsciodia
repository: the chat storage operations of `DatabaseStorage`
(src/server/storage.ts), the `chat_messages` table and its insert schema
(shared schema file), the WebSocket message handler registered in
`registerRoutes`, the HTTP route table of `registerRoutes`, and the
browser-side chat session logic of src/client/src/pages/Chat.tsx.

Database-generated values are modelled with explicit counters: fresh
primary keys (`gen_random_uuid()`) as a `nextId : Nat` counter and
persistence-time timestamps (`defaultNow()`) as a `now : Nat` clock that
advances at each durable write.
-/

namespace Matsciodia

/-- A stored row of the `chat_messages` table: id (varchar primary key,
database-generated), senderId, receiverId, message (text not null),
attachmentUrl (nullable varchar), read (boolean default false),
createdAt (timestamp default now). -/
structure ChatMessage where
  id : Nat
  senderId : String
  receiverId : String
  message : String
  attachmentUrl : Option String
  read : Bool
  createdAt : Nat
deriving DecidableEq, Repr

/-- The insert payload type `InsertChatMessage`: the table columns minus
the omitted `id`, `read` and `createdAt` (see `insertChatMessageSchema`,
which omits exactly those three). -/
structure InsertChatMessage where
  senderId : String
  receiverId : String
  message : String
  attachmentUrl : Option String
deriving DecidableEq, Repr

/-- State of the `chat_messages` table plus the database's generators:
the stored rows, the next fresh primary key, and the current clock used
for `createdAt`. -/
structure ChatDB where
  rows : List ChatMessage
  nextId : Nat
  now : Nat
deriving DecidableEq, Repr

/-- The empty chat message table. -/
def ChatDB.empty : ChatDB := { rows := [], nextId := 0, now := 0 }

/-- The spec's storage-layer error taxonomy entry for a failing
persistence call. -/
inductive StoreError where
  | storageUnavailable
deriving DecidableEq, Repr

/-- Insert a message into a list ordered by ascending `createdAt`
(the effect of the SQL `orderBy(chatMessages.createdAt)`). -/
def insertByCreatedAt (m : ChatMessage) : List ChatMessage → List ChatMessage
  | [] => [m]
  | x :: xs =>
    if m.createdAt ≤ x.createdAt then m :: x :: xs else x :: insertByCreatedAt m xs

/-- Sort a row list by ascending `createdAt`, modelling the
`orderBy(chatMessages.createdAt)` clause. -/
def orderByCreatedAt : List ChatMessage → List ChatMessage
  | [] => []
  | x :: xs => insertByCreatedAt x (orderByCreatedAt xs)

/-- DatabaseStorage.getChatMessages: select all rows where
`senderId = userId1 AND receiverId = userId2`, ordered by `createdAt`
ascending (storage.ts lines 323-334). -/
def getChatMessages (db : ChatDB) (userId1 userId2 : String) : List ChatMessage :=
  orderByCreatedAt
    (db.rows.filter (fun m => m.senderId == userId1 && m.receiverId == userId2))

/-- DatabaseStorage.createChatMessage: `db.insert(chatMessages).values(message)
.returning()` (storage.ts lines 336-339). The database supplies the fresh
primary key, the default `read = false` and the persistence-time
`createdAt`; the inserted values are stored verbatim (no validation is
performed on the body). Returns the stored record and the new table
state. -/
def createChatMessage (db : ChatDB) (ins : InsertChatMessage) : ChatMessage × ChatDB :=
  let newMessage : ChatMessage :=
    { id := db.nextId
      senderId := ins.senderId
      receiverId := ins.receiverId
      message := ins.message
      attachmentUrl := ins.attachmentUrl
      read := false
      createdAt := db.now }
  (newMessage,
    { rows := db.rows ++ [newMessage], nextId := db.nextId + 1, now := db.now + 1 })

/-- DatabaseStorage.createChatMessage seen through a storage layer that
may be unavailable: when the database is up the insert always succeeds,
when it is down the awaited call rejects (the spec's
`StorageUnavailable`). -/
def tryCreateChatMessage (storeUp : Bool) (db : ChatDB) (ins : InsertChatMessage) :
    Except StoreError (ChatMessage × ChatDB) :=
  if storeUp then Except.ok (createChatMessage db ins)
  else Except.error StoreError.storageUnavailable

/-- DatabaseStorage.markMessageAsRead: `db.update(chatMessages).set(read true)
.where(eq(chatMessages.id, messageId))` (storage.ts lines 341-346). A SQL
UPDATE whose WHERE clause matches no row still resolves successfully, so
the operation never reports a missing id. -/
def markMessageAsRead (db : ChatDB) (messageId : Nat) : Except StoreError ChatDB :=
  Except.ok
    { db with
      rows := db.rows.map
        (fun m => if m.id = messageId then { m with read := true } else m) }

/-- The ws readyState constant `WebSocket.OPEN` (the only one the server
handler compares against; CONNECTING = 0, OPEN = 1, CLOSING = 2,
CLOSED = 3). -/
def WebSocketOPEN : Nat := 1

/-- A client tracked by the WebSocket server's `wss.clients` set: an
identifier for the underlying channel and its transport readyState. -/
structure WsClient where
  cid : Nat
  readyState : Nat
deriving DecidableEq, Repr

/-- Result of `JSON.parse` on an inbound frame, as the handler consumes
it: a parse failure (caught by the surrounding try/catch), a parsed
object whose `type` is not the string chat (the if-branch is skipped), or
a chat envelope carrying senderId, receiverId, content and an optional
attachmentUrl. -/
inductive Inbound where
  | malformed
  | other (ty : String)
  | chat (senderId receiverId content : String) (attachmentUrl : Option String)
deriving DecidableEq, Repr

/-- The outbound envelope the server serialises for each client:
`JSON.stringify` of an object with a `type` field and the persisted chat
message as `data`. -/
structure Outbound where
  type : String
  data : ChatMessage
deriving DecidableEq, Repr

/-- One `client.send` performed during the broadcast loop: the target
channel's identifier and the payload written to it. -/
structure Delivery where
  target : Nat
  payload : Outbound
deriving DecidableEq, Repr

/-- The `ws.on` message handler registered in `registerRoutes`
(storage.ts lines 608-634): parse the frame; when `type` is chat, await
`storage.createChatMessage` with the envelope's fields; on success
iterate `wss.clients` and send `{ type: chat, data: chatMessage }` to
every client whose readyState is OPEN. A thrown error — parse failure or
a rejected persistence call — is caught and logged, producing no
broadcast and no state change. Returns the table state after the event
and the list of sends performed. -/
def handleWsMessage (storeUp : Bool) (clients : List WsClient) (db : ChatDB)
    (data : Inbound) : ChatDB × List Delivery :=
  match data with
  | Inbound.malformed => (db, [])
  | Inbound.other _ => (db, [])
  | Inbound.chat senderId receiverId content attachmentUrl =>
    match tryCreateChatMessage storeUp db
        { senderId := senderId, receiverId := receiverId,
          message := content, attachmentUrl := attachmentUrl } with
    | Except.error _ => (db, [])
    | Except.ok (chatMessage, db2) =>
      (db2,
        (clients.filter (fun c => c.readyState == WebSocketOPEN)).map
          (fun c =>
            { target := c.cid, payload := { type := "chat", data := chatMessage } }))

/-- The HTTP verbs used by `registerRoutes`. -/
inductive HttpMethod where
  | get | post | put | delete
deriving DecidableEq, Repr

/-- The storage-layer calls a route handler awaits (one constructor per
`storage.` method appearing in a handler body; `teachersQuery` is the
direct `db.select` in the teachers route). -/
inductive StorageCall where
  | getUser
  | getCourses | getCourse | createCourse | updateCourse | deleteCourse
  | getClasses | getClass | createClass
  | getTests | createTest
  | getStudents | createStudent
  | getCoupons | createCoupon
  | getCampaigns | createCampaign
  | getFiles
  | teachersQuery
  | getChatMessagesCall | createChatMessageCall | markMessageAsReadCall
deriving DecidableEq, Repr

/-- An HTTP route registered by `registerRoutes`: verb, path, and the
storage calls its handler performs. -/
structure Route where
  method : HttpMethod
  path : String
  calls : List StorageCall
deriving DecidableEq, Repr

/-- The complete route table of `registerRoutes` (storage.ts lines
370-598): every `app.get`, `app.post`, `app.put` and `app.delete`
registration, in source order, with the storage calls of each handler. -/
def registeredRoutes : List Route :=
  [ { method := HttpMethod.get, path := "/api/auth/user", calls := [StorageCall.getUser] }
  , { method := HttpMethod.get, path := "/api/courses", calls := [StorageCall.getCourses] }
  , { method := HttpMethod.get, path := "/api/courses/:id", calls := [StorageCall.getCourse] }
  , { method := HttpMethod.post, path := "/api/courses", calls := [StorageCall.createCourse] }
  , { method := HttpMethod.put, path := "/api/courses/:id", calls := [StorageCall.updateCourse] }
  , { method := HttpMethod.delete, path := "/api/courses/:id", calls := [StorageCall.deleteCourse] }
  , { method := HttpMethod.get, path := "/api/classes", calls := [StorageCall.getClasses] }
  , { method := HttpMethod.get, path := "/api/classes/:id", calls := [StorageCall.getClass] }
  , { method := HttpMethod.post, path := "/api/classes", calls := [StorageCall.createClass] }
  , { method := HttpMethod.get, path := "/api/tests", calls := [StorageCall.getTests] }
  , { method := HttpMethod.post, path := "/api/tests", calls := [StorageCall.createTest] }
  , { method := HttpMethod.get, path := "/api/students", calls := [StorageCall.getStudents] }
  , { method := HttpMethod.post, path := "/api/students", calls := [StorageCall.createStudent] }
  , { method := HttpMethod.get, path := "/api/coupons", calls := [StorageCall.getCoupons] }
  , { method := HttpMethod.post, path := "/api/coupons", calls := [StorageCall.createCoupon] }
  , { method := HttpMethod.get, path := "/api/campaigns", calls := [StorageCall.getCampaigns] }
  , { method := HttpMethod.post, path := "/api/campaigns", calls := [StorageCall.createCampaign] }
  , { method := HttpMethod.get, path := "/api/files", calls := [StorageCall.getFiles] }
  , { method := HttpMethod.get, path := "/api/analytics",
      calls := [StorageCall.getCourses, StorageCall.getStudents, StorageCall.getClasses] }
  , { method := HttpMethod.get, path := "/api/teachers", calls := [StorageCall.teachersQuery] } ]

/-- An entry of the browser-side `messages` state array. The runtime list
is untyped and ends up holding objects of two shapes: the optimistic
local copy built in `sendMessage` (client-generated id from `Date.now()`,
a local timestamp, no receiver) and a server-echoed persisted record
appended verbatim by the `onmessage` handler. -/
inductive ClientMsg where
  | localCopy (id : String) (senderId : String) (message : String)
      (timestamp : Nat) (read : Bool)
  | serverEcho (data : ChatMessage)
deriving DecidableEq, Repr

/-- Browser-side chat session state (Chat.tsx): the `isConnected` flag,
the `messages` array, and an instrumentation counter of how many times
`new WebSocket(wsUrl)` has been constructed. -/
structure ClientSession where
  isConnected : Bool
  messages : List ClientMsg
  socketsOpened : Nat
deriving DecidableEq, Repr

/-- A parsed frame arriving at the client's `onmessage` handler. -/
inductive ServerFrame where
  | malformed
  | other (ty : String)
  | chat (data : ChatMessage)
deriving DecidableEq, Repr

/-- The events delivered to the WebSocket handlers installed by the
connection effect in Chat.tsx (lines 154-197). -/
inductive ClientEvent where
  | onOpen
  | onMessage (frame : ServerFrame)
  | onClose
  | onError
deriving DecidableEq, Repr

/-- The client's WebSocket event handlers (Chat.tsx lines 163-187):
onopen sets isConnected; onmessage appends `data.data` to `messages`
when the frame's type is chat (parse errors are caught and logged);
onclose and onerror set isConnected to false and do nothing else — in
particular none of these handlers constructs a new WebSocket. -/
def clientHandleEvent (s : ClientSession) : ClientEvent → ClientSession
  | ClientEvent.onOpen => { s with isConnected := true }
  | ClientEvent.onMessage frame =>
    match frame with
    | ServerFrame.chat d => { s with messages := s.messages ++ [ClientMsg.serverEcho d] }
    | ServerFrame.other _ => s
    | ServerFrame.malformed => s
  | ClientEvent.onClose => { s with isConnected := false }
  | ClientEvent.onError => { s with isConnected := false }

/-- The body of the connection effect (Chat.tsx lines 154-197), run on
mount while authenticated: the only place the client constructs
`new WebSocket(wsUrl)`. -/
def connectOnMount (s : ClientSession) : ClientSession :=
  { s with socketsOpened := s.socketsOpened + 1 }

/-- The client's sendMessage (Chat.tsx lines 217-242): bail out when the
trimmed input is empty, no peer is selected, or no socket reference
exists; otherwise append an optimistic local copy (id from `Date.now()`)
to `messages` immediately, then write the chat envelope to the socket
only if its readyState is OPEN (the send is silently dropped otherwise).
Returns the new session state and the envelope written, if any. -/
def sendMessage (s : ClientSession) (userId : String) (selectedUser : Option String)
    (newMessage : String) (wsReady : Option Nat) (nowMs : Nat) :
    ClientSession × Option Inbound :=
  match selectedUser, wsReady with
  | some receiverId, some rs =>
    if newMessage.trim == "" then (s, none)
    else
      let localMsg := ClientMsg.localCopy (toString nowMs) userId newMessage.trim nowMs false
      let s2 := { s with messages := s.messages ++ [localMsg] }
      if rs == WebSocketOPEN then
        (s2, some (Inbound.chat userId receiverId newMessage.trim none))
      else (s2, none)
  | _, _ => (s, none)

/-- Well-formedness of a table state, as maintained by the store: rows
appear in insertion order with strictly increasing persistence
timestamps, and every stored id and timestamp is below the corresponding
generator. Monotone timestamps model the monotone `now()` of a single
database instance together with append-order retrieval. -/
def ChatDB.WF (db : ChatDB) : Prop :=
  db.rows.Pairwise (fun a b => a.createdAt < b.createdAt) ∧
  ∀ m ∈ db.rows, m.id < db.nextId ∧ m.createdAt < db.now

instance (db : ChatDB) : Decidable db.WF := by
  unfold ChatDB.WF
  infer_instance

/-- Run a sequence of createChatMessage calls to completion,
sequentially; returns the final table state and the stored records in
call order. -/
def createMany (db : ChatDB) : List InsertChatMessage → ChatDB × List ChatMessage
  | [] => (db, [])
  | ins :: rest =>
    let step := createChatMessage db ins
    let tail := createMany step.2 rest
    (tail.1, step.1 :: tail.2)

/-- One operation of the chat subsystem: a conversation query, a direct
storage insert, a mark-read update, or one inbound WebSocket frame
handled by the server. -/
inductive ChatOp where
  | getMessages (userId1 userId2 : String)
  | createMessage (ins : InsertChatMessage)
  | markRead (messageId : Nat)
  | wsMessage (storeUp : Bool) (clients : List WsClient) (data : Inbound)
deriving DecidableEq, Repr

/-- The effect of one chat-subsystem operation on the stored table. -/
def applyOp (db : ChatDB) : ChatOp → ChatDB
  | ChatOp.getMessages _ _ => db
  | ChatOp.createMessage ins => (createChatMessage db ins).2
  | ChatOp.markRead mid =>
    match markMessageAsRead db mid with
    | Except.ok db2 => db2
    | Except.error _ => db
  | ChatOp.wsMessage up cs d => (handleWsMessage up cs db d).1

/-- Run a sequence of chat-subsystem operations. -/
def runOps (db : ChatDB) : List ChatOp → ChatDB
  | [] => db
  | op :: ops => runOps (applyOp db op) ops

/-- Equality of every ChatMessage field except the read flag. -/
def SameImmutableFields (a b : ChatMessage) : Prop :=
  a.id = b.id ∧ a.senderId = b.senderId ∧ a.receiverId = b.receiverId ∧
  a.message = b.message ∧ a.attachmentUrl = b.attachmentUrl ∧
  a.createdAt = b.createdAt

theorem insertByCreatedAt_head_le (m x : ChatMessage) (xs : List ChatMessage)
    (h : m.createdAt ≤ x.createdAt) :
    insertByCreatedAt m (x :: xs) = m :: x :: xs := by
  simp [insertByCreatedAt, h]

theorem orderByCreatedAt_eq_self (l : List ChatMessage)
    (h : l.Pairwise (fun a b => a.createdAt ≤ b.createdAt)) :
    orderByCreatedAt l = l := by
  induction l with
  | nil => rfl
  | cons a as ih =>
    rw [List.pairwise_cons] at h
    show insertByCreatedAt a (orderByCreatedAt as) = a :: as
    rw [ih h.2]
    cases as with
    | nil => rfl
    | cons b bs =>
      exact insertByCreatedAt_head_le a b bs (h.1 b (List.mem_cons_self b bs))

theorem getChatMessages_eq_filter (db : ChatDB) (u1 u2 : String) (h : db.WF) :
    getChatMessages db u1 u2
      = db.rows.filter (fun m => m.senderId == u1 && m.receiverId == u2) := by
  apply orderByCreatedAt_eq_self
  have hp : (db.rows.filter
      (fun m => m.senderId == u1 && m.receiverId == u2)).Pairwise
        (fun a b => a.createdAt < b.createdAt) :=
    List.Pairwise.sublist (List.filter_sublist db.rows) h.1
  exact hp.imp Nat.le_of_lt

theorem createChatMessage_rows (db : ChatDB) (ins : InsertChatMessage) :
    (createChatMessage db ins).2.rows = db.rows ++ [(createChatMessage db ins).1] := by
  rfl

theorem createChatMessage_wf (db : ChatDB) (ins : InsertChatMessage) (h : db.WF) :
    (createChatMessage db ins).2.WF := by
  obtain ⟨hord, hbound⟩ := h
  constructor
  · rw [createChatMessage_rows, List.pairwise_append]
    refine ⟨hord, List.pairwise_singleton _ _, ?_⟩
    intro a ha b hb
    rw [List.mem_singleton] at hb
    subst hb
    exact (hbound a ha).2
  · intro m hm
    rw [createChatMessage_rows, List.mem_append, List.mem_singleton] at hm
    rcases hm with hm | hm
    · exact ⟨Nat.lt_succ_of_lt (hbound m hm).1, Nat.lt_succ_of_lt (hbound m hm).2⟩
    · subst hm
      exact ⟨Nat.lt_succ_self _, Nat.lt_succ_self _⟩

theorem createMany_rows (inss : List InsertChatMessage) (db : ChatDB) :
    (createMany db inss).1.rows = db.rows ++ (createMany db inss).2 := by
  induction inss generalizing db with
  | nil => simp [createMany]
  | cons i is ih =>
    show (createMany (createChatMessage db i).2 is).1.rows
      = db.rows ++ ((createChatMessage db i).1 :: (createMany (createChatMessage db i).2 is).2)
    rw [ih, createChatMessage_rows, List.append_assoc, List.singleton_append]

theorem createMany_wf (inss : List InsertChatMessage) (db : ChatDB) (h : db.WF) :
    (createMany db inss).1.WF := by
  induction inss generalizing db with
  | nil => exact h
  | cons i is ih => exact ih (createChatMessage db i).2 (createChatMessage_wf db i h)

theorem createMany_pair (inss : List InsertChatMessage) (db : ChatDB) (u1 u2 : String)
    (hall : ∀ ins ∈ inss, ins.senderId = u1 ∧ ins.receiverId = u2) :
    ∀ m ∈ (createMany db inss).2, m.senderId = u1 ∧ m.receiverId = u2 := by
  induction inss generalizing db with
  | nil => intro m hm; simp [createMany] at hm
  | cons i is ih =>
    intro m hm
    rcases List.mem_cons.mp hm with hm | hm
    · subst hm
      exact hall i (List.mem_cons_self i is)
    · exact ih _ (fun ins hins => hall ins (List.mem_cons_of_mem i hins)) m hm

theorem trim_hello : "hello".trim = "hello" := by
  have hb : Substring.takeWhileAux "hello" "hello".endPos Char.isWhitespace ⟨0⟩
      = (⟨0⟩ : String.Pos) := by
    rw [Substring.takeWhileAux]
    rw [dif_pos (by decide)]
    rw [if_neg (by decide)]
  have he : Substring.takeRightWhileAux "hello" ⟨0⟩ Char.isWhitespace "hello".endPos
      = "hello".endPos := by
    rw [Substring.takeRightWhileAux]
    rw [dif_pos (by decide)]
    rw [if_pos (by decide)]
  show ("hello".toSubstring.trim).toString = "hello"
  rw [Substring.trim]
  simp only [String.toSubstring]
  rw [hb, he]
  decide

theorem applyOp_preserves (db : ChatDB) (op : ChatOp) (m : ChatMessage)
    (hm : m ∈ db.rows) :
    ∃ m2, m2 ∈ (applyOp db op).rows ∧ SameImmutableFields m m2 ∧
      (m.read = true → m2.read = true) ∧
      (m2.read ≠ m.read → m2.read = true ∧ op = ChatOp.markRead m.id) := by
  cases op with
  | getMessages u1 u2 =>
    exact ⟨m, hm, ⟨rfl, rfl, rfl, rfl, rfl, rfl⟩, fun h => h, fun h => absurd rfl h⟩
  | createMessage ins =>
    refine ⟨m, ?_, ⟨rfl, rfl, rfl, rfl, rfl, rfl⟩, fun h => h, fun h => absurd rfl h⟩
    show m ∈ (createChatMessage db ins).2.rows
    rw [createChatMessage_rows]
    exact List.mem_append_left _ hm
  | markRead mid =>
    have hmem := List.mem_map_of_mem
      (fun r => if r.id = mid then { r with read := true } else r) hm
    by_cases hid : m.id = mid
    · refine ⟨{ m with read := true }, ?_, ⟨rfl, rfl, rfl, rfl, rfl, rfl⟩,
        fun _ => rfl, fun _ => ⟨rfl, by rw [hid]⟩⟩
      show { m with read := true }
        ∈ db.rows.map (fun r => if r.id = mid then { r with read := true } else r)
      simpa [hid] using hmem
    · refine ⟨m, ?_, ⟨rfl, rfl, rfl, rfl, rfl, rfl⟩, fun h => h, fun h => absurd rfl h⟩
      show m ∈ db.rows.map (fun r => if r.id = mid then { r with read := true } else r)
      simpa [hid] using hmem
  | wsMessage up cs d =>
    cases d with
    | malformed =>
      exact ⟨m, hm, ⟨rfl, rfl, rfl, rfl, rfl, rfl⟩, fun h => h, fun h => absurd rfl h⟩
    | other ty =>
      exact ⟨m, hm, ⟨rfl, rfl, rfl, rfl, rfl, rfl⟩, fun h => h, fun h => absurd rfl h⟩
    | chat s r c a =>
      cases up with
      | false =>
        exact ⟨m, hm, ⟨rfl, rfl, rfl, rfl, rfl, rfl⟩, fun h => h, fun h => absurd rfl h⟩
      | true =>
        refine ⟨m, ?_, ⟨rfl, rfl, rfl, rfl, rfl, rfl⟩, fun h => h, fun h => absurd rfl h⟩
        show m ∈ (createChatMessage db
          { senderId := s, receiverId := r, message := c, attachmentUrl := a }).2.rows
        rw [createChatMessage_rows]
        exact List.mem_append_left _ hm

/-- A concrete table holding one persisted message (u1 to u2), used to
instantiate the universally quantified results below. -/
def dbOne : ChatDB :=
  (createChatMessage ChatDB.empty
    { senderId := "u1", receiverId := "u2", message := "hi", attachmentUrl := none }).2

/-- C1: getConversation (getChatMessages userA userB) returns exactly the
stored messages whose (senderId, receiverId) equals (userA, userB) — not
the reverse direction — ordered by createdAt ascending; and for any
sequence of createMessage calls for the same (senderId, receiverId) pair
issued to completion sequentially, getConversation returns them in the
same order (appended, in call order, after the pre-existing
conversation). -/
theorem getConversation_exact_and_ordered (db : ChatDB) (u1 u2 : String)
    (inss : List InsertChatMessage) (hwf : db.WF)
    (hall : ∀ ins ∈ inss, ins.senderId = u1 ∧ ins.receiverId = u2) :
    (∀ m, m ∈ getChatMessages db u1 u2 ↔
        m ∈ db.rows ∧ m.senderId = u1 ∧ m.receiverId = u2) ∧
    (getChatMessages db u1 u2).Pairwise (fun a b => a.createdAt ≤ b.createdAt) ∧
    getChatMessages (createMany db inss).1 u1 u2
      = getChatMessages db u1 u2 ++ (createMany db inss).2 := by
  have hfil := getChatMessages_eq_filter db u1 u2 hwf
  refine ⟨?_, ?_, ?_⟩
  · intro m
    rw [hfil, List.mem_filter]
    simp [and_assoc]
  · rw [hfil]
    have hp : (db.rows.filter
        (fun m => m.senderId == u1 && m.receiverId == u2)).Pairwise
          (fun a b => a.createdAt < b.createdAt) :=
      List.Pairwise.sublist (List.filter_sublist db.rows) hwf.1
    exact hp.imp Nat.le_of_lt
  · rw [getChatMessages_eq_filter _ _ _ (createMany_wf inss db hwf), hfil,
      createMany_rows, List.filter_append]
    congr 1
    rw [List.filter_eq_self]
    intro a ha
    have hpa := createMany_pair inss db u1 u2 hall a ha
    simp [hpa.1, hpa.2]

/-- Witness for C1 at a concrete store (one pre-existing u1-to-u2
message) and two sequential creates for the same pair. -/
theorem getConversation_exact_and_ordered_witness :
    (∀ m, m ∈ getChatMessages dbOne "u1" "u2" ↔
        m ∈ dbOne.rows ∧ m.senderId = "u1" ∧ m.receiverId = "u2") ∧
    (getChatMessages dbOne "u1" "u2").Pairwise
      (fun a b => a.createdAt ≤ b.createdAt) ∧
    getChatMessages (createMany dbOne
        [ { senderId := "u1", receiverId := "u2", message := "a", attachmentUrl := none }
        , { senderId := "u1", receiverId := "u2", message := "b", attachmentUrl := none } ]).1
        "u1" "u2"
      = getChatMessages dbOne "u1" "u2" ++ (createMany dbOne
        [ { senderId := "u1", receiverId := "u2", message := "a", attachmentUrl := none }
        , { senderId := "u1", receiverId := "u2", message := "b", attachmentUrl := none } ]).2 :=
  getConversation_exact_and_ordered dbOne "u1" "u2"
    [ { senderId := "u1", receiverId := "u2", message := "a", attachmentUrl := none }
    , { senderId := "u1", receiverId := "u2", message := "b", attachmentUrl := none } ]
    (by decide) (by decide)

/-- C4 counterexample: createMessage (createChatMessage) performs no
validation of the body — an empty body is accepted: the persistence call
succeeds and the empty string is stored verbatim in the returned,
persisted record. -/
theorem createMessage_accepts_empty_body :
    tryCreateChatMessage true ChatDB.empty
        { senderId := "u1", receiverId := "u2", message := "", attachmentUrl := none }
      = Except.ok (createChatMessage ChatDB.empty
        { senderId := "u1", receiverId := "u2", message := "", attachmentUrl := none }) ∧
    (createChatMessage ChatDB.empty
        { senderId := "u1", receiverId := "u2", message := "", attachmentUrl := none }).1.message
      = "" ∧
    (createChatMessage ChatDB.empty
        { senderId := "u1", receiverId := "u2", message := "", attachmentUrl := none }).1
      ∈ (createChatMessage ChatDB.empty
        { senderId := "u1", receiverId := "u2", message := "", attachmentUrl := none }).2.rows := by
  refine ⟨rfl, rfl, ?_⟩
  decide

/-- C4 amended: createMessage (createChatMessage) assigns a fresh id
distinct from every stored id and a createdAt timestamp at persistence
time, sets read = false on the new record, stores the record by
appending it, and returns the stored record — but it performs no
validation of the body: any body, the empty string included, is stored
verbatim. -/
theorem createMessage_fresh_fields (db : ChatDB) (ins : InsertChatMessage)
    (hwf : db.WF) :
    (createChatMessage db ins).1.read = false ∧
    (createChatMessage db ins).1.id = db.nextId ∧
    (∀ m ∈ db.rows, m.id ≠ (createChatMessage db ins).1.id) ∧
    (createChatMessage db ins).1.createdAt = db.now ∧
    (createChatMessage db ins).2.rows = db.rows ++ [(createChatMessage db ins).1] ∧
    (createChatMessage db ins).1.message = ins.message ∧
    (createChatMessage db ins).1.senderId = ins.senderId ∧
    (createChatMessage db ins).1.receiverId = ins.receiverId := by
  refine ⟨rfl, rfl, ?_, rfl, createChatMessage_rows db ins, rfl, rfl, rfl⟩
  intro m hm
  exact Nat.ne_of_lt (hwf.2 m hm).1

/-- Witness for C4 amended: the fresh-field properties at a concrete
store and insert payload. -/
theorem createMessage_fresh_fields_witness :
    (createChatMessage dbOne
        { senderId := "u2", receiverId := "u1", message := "", attachmentUrl := none }).1.read
      = false ∧
    (createChatMessage dbOne
        { senderId := "u2", receiverId := "u1", message := "", attachmentUrl := none }).1.id
      = dbOne.nextId ∧
    (∀ m ∈ dbOne.rows, m.id ≠ (createChatMessage dbOne
        { senderId := "u2", receiverId := "u1", message := "", attachmentUrl := none }).1.id) ∧
    (createChatMessage dbOne
        { senderId := "u2", receiverId := "u1", message := "", attachmentUrl := none }).1.createdAt
      = dbOne.now ∧
    (createChatMessage dbOne
        { senderId := "u2", receiverId := "u1", message := "", attachmentUrl := none }).2.rows
      = dbOne.rows ++ [(createChatMessage dbOne
        { senderId := "u2", receiverId := "u1", message := "", attachmentUrl := none }).1] ∧
    (createChatMessage dbOne
        { senderId := "u2", receiverId := "u1", message := "", attachmentUrl := none }).1.message
      = "" ∧
    (createChatMessage dbOne
        { senderId := "u2", receiverId := "u1", message := "", attachmentUrl := none }).1.senderId
      = "u2" ∧
    (createChatMessage dbOne
        { senderId := "u2", receiverId := "u1", message := "", attachmentUrl := none }).1.receiverId
      = "u1" :=
  createMessage_fresh_fields dbOne
    { senderId := "u2", receiverId := "u1", message := "", attachmentUrl := none }
    (by decide)

/-- C5 counterexample: markRead (markMessageAsRead) on an id that is not
present in the store (the store holds exactly one message, with id 0)
does not fail with NotFound: the update resolves successfully and the
store is unchanged. -/
theorem markRead_missing_id_succeeds :
    (∀ m ∈ dbOne.rows, m.id ≠ 999) ∧
    markMessageAsRead dbOne 999 = Except.ok dbOne :=
  ⟨by decide, rfl⟩

/-- C5 amended: for every message id that does not exist in the store,
markRead (markMessageAsRead) leaves the store unchanged but does not
fail: the update matches no row and resolves successfully (no NotFound
error is produced). -/
theorem markRead_missing_id_noop (db : ChatDB) (mid : Nat)
    (h : ∀ m ∈ db.rows, m.id ≠ mid) :
    markMessageAsRead db mid = Except.ok db := by
  unfold markMessageAsRead
  have h2 : db.rows.map
      (fun m => if m.id = mid then { m with read := true } else m) = db.rows := by
    have h3 := List.map_congr_left
      (f := fun m => if m.id = mid then { m with read := true } else m) (g := id)
      (l := db.rows) (fun a ha => by simp [h a ha])
    rw [h3, List.map_id]
  rw [h2]

/-- Witness for C5 amended at a concrete store and missing id. -/
theorem markRead_missing_id_noop_witness :
    markMessageAsRead dbOne 500 = Except.ok dbOne :=
  markRead_missing_id_noop dbOne 500 (by decide)

/-- C6: markRead (markMessageAsRead) is idempotent: the first call
succeeds and sets read = true on every message with the addressed id,
and a second call on the same id succeeds without error and changes
nothing — a no-op, not an error, when the message is already read. -/
theorem markRead_idempotent (db : ChatDB) (mid : Nat) :
    ∃ db2, markMessageAsRead db mid = Except.ok db2 ∧
      markMessageAsRead db2 mid = Except.ok db2 ∧
      ∀ m ∈ db2.rows, m.id = mid → m.read = true := by
  refine ⟨⟨db.rows.map (fun m : ChatMessage =>
    if m.id = mid then { m with read := true } else m), db.nextId, db.now⟩, rfl, ?_, ?_⟩
  · unfold markMessageAsRead
    have h2 : (db.rows.map
        (fun m => if m.id = mid then { m with read := true } else m)).map
          (fun m => if m.id = mid then { m with read := true } else m)
        = db.rows.map (fun m => if m.id = mid then { m with read := true } else m) := by
      rw [List.map_map]
      apply List.map_congr_left
      intro a ha
      by_cases hid : a.id = mid
      · simp [hid]
      · simp [hid]
    rw [h2]
  · intro m hm hid
    rw [List.mem_map] at hm
    obtain ⟨r, hr, hfr⟩ := hm
    by_cases hrid : r.id = mid
    · rw [← hfr]
      simp [hrid]
    · rw [← hfr] at hid
      simp [hrid] at hid

/-- C2: for every inbound envelope, if the persistence call fails (the
store is down, as with a fault-injected store that always fails), the
WebSocket handler performs no broadcast at all — zero deliveries — and
leaves the table unchanged; the broadcast happens only on the success
branch after the awaited persistence call. -/
theorem wsHandler_no_broadcast_on_failure (clients : List WsClient) (db : ChatDB)
    (data : Inbound) :
    handleWsMessage false clients db data = (db, []) := by
  cases data with
  | malformed => rfl
  | other ty => rfl
  | chat s r c a => rfl

/-- C3: for a successfully persisted chat envelope, the handler builds the
outbound envelope with type chat and the persisted record as data, and
delivers it to every client in the registry whose readyState is OPEN —
all connected clients, not just sender and receiver — producing exactly
one delivery per open channel and skipping channels that are not open. -/
theorem wsHandler_broadcast_to_open_clients (clients : List WsClient) (db : ChatDB)
    (s r c : String) (a : Option String) :
    (handleWsMessage true clients db (Inbound.chat s r c a)).2
      = (clients.filter (fun cl => cl.readyState == WebSocketOPEN)).map
          (fun cl => ⟨cl.cid, "chat", (createChatMessage db
            { senderId := s, receiverId := r, message := c, attachmentUrl := a }).1⟩) ∧
    (handleWsMessage true clients db (Inbound.chat s r c a)).2.length
      = (clients.filter (fun cl => cl.readyState == WebSocketOPEN)).length ∧
    (∀ d ∈ (handleWsMessage true clients db (Inbound.chat s r c a)).2,
      ∃ cl ∈ clients, cl.readyState = WebSocketOPEN ∧ d.target = cl.cid) := by
  refine ⟨rfl, List.length_map _ _, ?_⟩
  intro d hd
  have hd2 : d ∈ (clients.filter (fun cl => cl.readyState == WebSocketOPEN)).map
      (fun cl => (⟨cl.cid, "chat", (createChatMessage db
        { senderId := s, receiverId := r, message := c,
          attachmentUrl := a }).1⟩ : Delivery)) := hd
  obtain ⟨cl, hcl, hfd⟩ := List.mem_map.mp hd2
  refine ⟨cl, (List.mem_filter.mp hcl).1, ?_, ?_⟩
  · have hb := (List.mem_filter.mp hcl).2
    simpa using hb
  · rw [← hfd]

/-- C7: over every sequence of chat-subsystem operations, every stored
message survives (no operation deletes it), all its fields other than
read are never modified, and its read flag transitions only from false
to true — never reverting — and only when the sequence contains an
explicit markRead operation addressed to that message's id. -/
theorem chat_message_invariants (ops : List ChatOp) (db : ChatDB) (m : ChatMessage)
    (hm : m ∈ db.rows) :
    ∃ m2, m2 ∈ (runOps db ops).rows ∧ SameImmutableFields m m2 ∧
      (m.read = true → m2.read = true) ∧
      (m2.read ≠ m.read → m2.read = true ∧ ChatOp.markRead m.id ∈ ops) := by
  induction ops generalizing db m with
  | nil =>
    exact ⟨m, hm, ⟨rfl, rfl, rfl, rfl, rfl, rfl⟩, fun h => h, fun h => absurd rfl h⟩
  | cons op ops ih =>
    obtain ⟨m1, hm1, hf1, hmono1, hchg1⟩ := applyOp_preserves db op m hm
    obtain ⟨m2, hm2, hf2, hmono2, hchg2⟩ := ih (applyOp db op) m1 hm1
    refine ⟨m2, hm2, ?_, fun h => hmono2 (hmono1 h), ?_⟩
    · obtain ⟨a1, a2, a3, a4, a5, a6⟩ := hf1
      obtain ⟨b1, b2, b3, b4, b5, b6⟩ := hf2
      exact ⟨a1.trans b1, a2.trans b2, a3.trans b3, a4.trans b4, a5.trans b5, a6.trans b6⟩
    · intro hne
      by_cases h1 : m1.read = m.read
      · have hne2 : m2.read ≠ m1.read := by rw [h1]; exact hne
        obtain ⟨ht, hin⟩ := hchg2 hne2
        have hin2 : ChatOp.markRead m.id ∈ ops := by rw [hf1.1]; exact hin
        exact ⟨ht, List.mem_cons_of_mem op hin2⟩
      · obtain ⟨ht1, hop⟩ := hchg1 h1
        refine ⟨hmono2 ht1, ?_⟩
        rw [hop]
        exact List.mem_cons_self _ _

/-- Witness for C7: the stored message of the one-row table, run through
a sequence containing a query, an unrelated insert, and a markRead on
its id. -/
theorem chat_message_invariants_witness :
    ∃ m2, m2 ∈ (runOps dbOne
        [ ChatOp.getMessages "u1" "u2"
        , ChatOp.createMessage
            { senderId := "u2", receiverId := "u1", message := "yo", attachmentUrl := none }
        , ChatOp.markRead 0 ]).rows ∧
      SameImmutableFields
        (createChatMessage ChatDB.empty
          { senderId := "u1", receiverId := "u2", message := "hi",
            attachmentUrl := none }).1 m2 ∧
      ((createChatMessage ChatDB.empty
          { senderId := "u1", receiverId := "u2", message := "hi",
            attachmentUrl := none }).1.read = true → m2.read = true) ∧
      (m2.read ≠ (createChatMessage ChatDB.empty
          { senderId := "u1", receiverId := "u2", message := "hi",
            attachmentUrl := none }).1.read → m2.read = true ∧
        ChatOp.markRead (createChatMessage ChatDB.empty
          { senderId := "u1", receiverId := "u2", message := "hi",
            attachmentUrl := none }).1.id ∈
          [ ChatOp.getMessages "u1" "u2"
          , ChatOp.createMessage
              { senderId := "u2", receiverId := "u1", message := "yo", attachmentUrl := none }
          , ChatOp.markRead 0 ]) :=
  chat_message_invariants
    [ ChatOp.getMessages "u1" "u2"
    , ChatOp.createMessage
        { senderId := "u2", receiverId := "u1", message := "yo", attachmentUrl := none }
    , ChatOp.markRead 0 ]
    dbOne
    (createChatMessage ChatDB.empty
      { senderId := "u1", receiverId := "u2", message := "hi", attachmentUrl := none }).1
    (by decide)

/-- C8 counterexample: no route registered by registerRoutes invokes
getChatMessages or markMessageAsRead — the REST layer exposes neither
conversation history retrieval nor read-receipt mutation as an HTTP
endpoint. -/
theorem rest_no_chat_endpoint :
    ¬ ∃ r ∈ registeredRoutes,
      StorageCall.getChatMessagesCall ∈ r.calls ∨
      StorageCall.markMessageAsReadCall ∈ r.calls := by
  decide

/-- C8 amended: the server's REST resource layer exposes no chat
endpoint at all: every registered HTTP route's handler avoids
getChatMessages, markMessageAsRead and createChatMessage, so
conversation history and read receipts are not reachable over HTTP —
the chat storage operations are driven only by the WebSocket channel. -/
theorem rest_routes_have_no_chat_calls :
    ∀ r ∈ registeredRoutes,
      StorageCall.getChatMessagesCall ∉ r.calls ∧
      StorageCall.markMessageAsReadCall ∉ r.calls ∧
      StorageCall.createChatMessageCall ∉ r.calls := by
  decide

/-- Witness for C8 amended at a concrete registered route. -/
theorem rest_routes_have_no_chat_calls_witness :
    StorageCall.getChatMessagesCall
        ∉ (⟨HttpMethod.get, "/api/courses", [StorageCall.getCourses]⟩ : Route).calls ∧
      StorageCall.markMessageAsReadCall
        ∉ (⟨HttpMethod.get, "/api/courses", [StorageCall.getCourses]⟩ : Route).calls ∧
      StorageCall.createChatMessageCall
        ∉ (⟨HttpMethod.get, "/api/courses", [StorageCall.getCourses]⟩ : Route).calls :=
  rest_routes_have_no_chat_calls
    ⟨HttpMethod.get, "/api/courses", [StorageCall.getCourses]⟩ (by decide)

/-- A concrete connected client session: marked connected, empty message
list, one socket constructed so far. -/
def session1 : ClientSession :=
  { isConnected := true, messages := [], socketsOpened := 1 }

/-- C9 counterexample: when the channel drops, the client does not open a
new WebSocket: on the close event (and on the error event) the session
only flips isConnected to false and the number of sockets constructed
stays exactly as it was. -/
theorem client_drop_does_not_reconnect :
    (clientHandleEvent session1 ClientEvent.onClose).isConnected = false ∧
    (clientHandleEvent session1 ClientEvent.onClose).socketsOpened
      = session1.socketsOpened ∧
    (clientHandleEvent session1 ClientEvent.onError).isConnected = false ∧
    (clientHandleEvent session1 ClientEvent.onError).socketsOpened
      = session1.socketsOpened := by
  decide

/-- C9 amended: on channel drop (close or error) the client only marks
its connectivity state as disconnected; it opens no new WebSocket and
leaves its message list untouched. A socket is constructed only by the
mount-time connection effect. -/
theorem client_drop_sets_disconnected_only (s : ClientSession) :
    (clientHandleEvent s ClientEvent.onClose).isConnected = false ∧
    (clientHandleEvent s ClientEvent.onClose).socketsOpened = s.socketsOpened ∧
    (clientHandleEvent s ClientEvent.onClose).messages = s.messages ∧
    (clientHandleEvent s ClientEvent.onError).isConnected = false ∧
    (clientHandleEvent s ClientEvent.onError).socketsOpened = s.socketsOpened ∧
    (clientHandleEvent s ClientEvent.onError).messages = s.messages ∧
    (connectOnMount s).socketsOpened = s.socketsOpened + 1 :=
  ⟨rfl, rfl, rfl, rfl, rfl, rfl, rfl⟩

/-- C10: when a client sends a message while its channel is open and the
server persists it, the sender first appends an optimistic local copy
(client-generated id from the millisecond clock) and then, on receiving
the broadcast echo — which the open sender channel does receive —
appends the server's persisted copy (store-generated id) as well, with
no de-duplication: the in-memory list ends with two entries for the one
message. -/
theorem sender_sees_two_copies (s : ClientSession) (uid recv msg : String)
    (nowMs : Nat) (clients : List WsClient) (db : ChatDB) (sender : WsClient)
    (hmsg : ¬ msg.trim = "") (hs : sender ∈ clients)
    (hopen : sender.readyState = WebSocketOPEN) :
    (sendMessage s uid (some recv) msg (some WebSocketOPEN) nowMs).2
      = some (Inbound.chat uid recv msg.trim none) ∧
    (sendMessage s uid (some recv) msg (some WebSocketOPEN) nowMs).1.messages
      = s.messages ++ [ClientMsg.localCopy (toString nowMs) uid msg.trim nowMs false] ∧
    (∃ d ∈ (handleWsMessage true clients db (Inbound.chat uid recv msg.trim none)).2,
        d.target = sender.cid ∧
        d.payload = ⟨"chat", (createChatMessage db
          { senderId := uid, receiverId := recv, message := msg.trim,
            attachmentUrl := none }).1⟩) ∧
    (createChatMessage db
        { senderId := uid, receiverId := recv, message := msg.trim,
          attachmentUrl := none }).1.id = db.nextId ∧
    (clientHandleEvent (sendMessage s uid (some recv) msg (some WebSocketOPEN) nowMs).1
        (ClientEvent.onMessage (ServerFrame.chat (createChatMessage db
          { senderId := uid, receiverId := recv, message := msg.trim,
            attachmentUrl := none }).1))).messages
      = s.messages
        ++ [ ClientMsg.localCopy (toString nowMs) uid msg.trim nowMs false
           , ClientMsg.serverEcho ((createChatMessage db
              { senderId := uid, receiverId := recv, message := msg.trim,
                attachmentUrl := none }).1) ] := by
  have hbeq : (msg.trim == "") = false := by
    rw [beq_eq_false_iff_ne]
    exact hmsg
  have hsend : sendMessage s uid (some recv) msg (some WebSocketOPEN) nowMs
      = (⟨s.isConnected,
          s.messages ++ [ClientMsg.localCopy (toString nowMs) uid msg.trim nowMs false],
          s.socketsOpened⟩,
         some (Inbound.chat uid recv msg.trim none)) := by
    simp [sendMessage, hbeq]
  refine ⟨?_, ?_, ?_, rfl, ?_⟩
  · rw [hsend]
  · rw [hsend]
  · have hmemf : sender ∈ clients.filter (fun c => c.readyState == WebSocketOPEN) :=
      List.mem_filter.mpr ⟨hs, by simp [hopen]⟩
    refine ⟨⟨sender.cid, "chat", (createChatMessage db
      { senderId := uid, receiverId := recv, message := msg.trim,
        attachmentUrl := none }).1⟩, ?_, rfl, rfl⟩
    exact List.mem_map_of_mem _ hmemf
  · rw [hsend]
    show (s.messages ++ [ClientMsg.localCopy (toString nowMs) uid msg.trim nowMs false])
        ++ [ClientMsg.serverEcho ((createChatMessage db
          { senderId := uid, receiverId := recv, message := msg.trim,
            attachmentUrl := none }).1)]
      = s.messages
        ++ [ ClientMsg.localCopy (toString nowMs) uid msg.trim nowMs false
           , ClientMsg.serverEcho ((createChatMessage db
              { senderId := uid, receiverId := recv, message := msg.trim,
                attachmentUrl := none }).1) ]
    rw [List.append_assoc]
    rfl

/-- Witness for C10: a concrete send of the string hello by user u1 to
user u2 over an open channel, with two open clients connected and an
empty store. -/
theorem sender_sees_two_copies_witness :
    (sendMessage session1 "u1" (some "u2") "hello" (some WebSocketOPEN) 7).2
      = some (Inbound.chat "u1" "u2" "hello".trim none) ∧
    (sendMessage session1 "u1" (some "u2") "hello" (some WebSocketOPEN) 7).1.messages
      = session1.messages
        ++ [ClientMsg.localCopy (toString 7) "u1" "hello".trim 7 false] ∧
    (∃ d ∈ (handleWsMessage true [⟨0, 1⟩, ⟨1, 1⟩] ChatDB.empty
        (Inbound.chat "u1" "u2" "hello".trim none)).2,
        d.target = (⟨0, 1⟩ : WsClient).cid ∧
        d.payload = ⟨"chat", (createChatMessage ChatDB.empty
          { senderId := "u1", receiverId := "u2", message := "hello".trim,
            attachmentUrl := none }).1⟩) ∧
    (createChatMessage ChatDB.empty
        { senderId := "u1", receiverId := "u2", message := "hello".trim,
          attachmentUrl := none }).1.id = ChatDB.empty.nextId ∧
    (clientHandleEvent (sendMessage session1 "u1" (some "u2") "hello"
        (some WebSocketOPEN) 7).1
        (ClientEvent.onMessage (ServerFrame.chat (createChatMessage ChatDB.empty
          { senderId := "u1", receiverId := "u2", message := "hello".trim,
            attachmentUrl := none }).1))).messages
      = session1.messages
        ++ [ ClientMsg.localCopy (toString 7) "u1" "hello".trim 7 false
           , ClientMsg.serverEcho ((createChatMessage ChatDB.empty
              { senderId := "u1", receiverId := "u2", message := "hello".trim,
                attachmentUrl := none }).1) ] :=
  sender_sees_two_copies session1 "u1" "u2" "hello" 7 [⟨0, 1⟩, ⟨1, 1⟩]
    ChatDB.empty ⟨0, 1⟩ (by rw [trim_hello]; decide) (by decide) (by decide)

end Matsciodia
